import Mathlib

/-!
Verification of the analytics / NL-query core of the automotive analytics
repository.  Python strings are modelled as `List Char`; Python numbers
(ints and floats) as `Int` / `Rat`; pandas data frames as lists of typed
row structures; Python dicts with dynamic keys as association lists with
an `Except`-valued lookup (a missing key is a `KeyError`).
-/

abbrev LCh := List Char

/-- Whitespace characters stripped by Python `str.strip()` (ASCII range:
space, tab, newline, vertical tab, form feed, carriage return). -/
def isWs (c : Char) : Bool :=
  c.toNat == 32 || c.toNat == 9 || c.toNat == 10 ||
  c.toNat == 11 || c.toNat == 12 || c.toNat == 13

/-- Python `str.upper()` on one character (ASCII letters; the SQL strings
and keywords of the repository are ASCII). -/
def upperChar (c : Char) : Char :=
  if 97 ≤ c.toNat ∧ c.toNat ≤ 122 then
    Char.ofNat (c.toNat - 32)
  else c

/-- Python `str.lower()` on one character (ASCII letters). -/
def lowerChar (c : Char) : Char :=
  if 65 ≤ c.toNat ∧ c.toNat ≤ 90 then
    Char.ofNat (c.toNat + 32)
  else c

/-- Python `str.upper()`. -/
def pyUpper (s : LCh) : LCh := s.map upperChar

/-- Python `str.lower()`. -/
def pyLower (s : LCh) : LCh := s.map lowerChar

/-- Python `str.startswith(pat)`. -/
def prefB : LCh → LCh → Bool
  | [], _ => true
  | _ :: _, [] => false
  | a :: as, b :: bs => a == b && prefB as bs

/-- Python `str.endswith(pat)`. -/
def suffB (pat s : LCh) : Bool := prefB pat.reverse s.reverse

/-- Python `pat in s` (substring test). -/
def infixB (pat : LCh) : LCh → Bool
  | [] => prefB pat []
  | c :: t => prefB pat (c :: t) || infixB pat t

/-- Python `str.strip()`, left side. -/
def pyStripL (s : LCh) : LCh := s.dropWhile isWs

/-- Python `str.strip()`, right side. -/
def pyStripR (s : LCh) : LCh := (s.reverse.dropWhile isWs).reverse

/-- Python `str.strip()`. -/
def pyStrip (s : LCh) : LCh := pyStripR (pyStripL s)

/-- Python `s.split("\n")` (keeps empty pieces). -/
def splitNl : LCh → List LCh
  | [] => [[]]
  | c :: t =>
    if c == '\n' then [] :: splitNl t
    else
      match splitNl t with
      | [] => [[c]]
      | l :: ls => (c :: l) :: ls

/-- Helper for `splitWs`: accumulates the current word (reversed). -/
def splitWsAux : LCh → LCh → List LCh
  | [], acc => if acc.isEmpty then [] else [acc.reverse]
  | c :: t, acc =>
    if isWs c then
      if acc.isEmpty then splitWsAux t [] else acc.reverse :: splitWsAux t []
    else splitWsAux t (c :: acc)

/-- Python `str.split()` with no argument: splits on whitespace runs,
discarding empty pieces. -/
def splitWs (s : LCh) : List LCh := splitWsAux s []

/-- Boolean `prefB` agrees with list-prefix. -/
theorem prefB_iff (pat s : LCh) : prefB pat s = true ↔ ∃ t, pat ++ t = s := by
  induction pat generalizing s with
  | nil => simp [prefB]
  | cons a as ih =>
    cases s with
    | nil => simp [prefB]
    | cons b bs =>
      simp only [prefB, Bool.and_eq_true, beq_iff_eq]
      constructor
      · rintro ⟨rfl, h⟩
        obtain ⟨t, rfl⟩ := (ih bs).mp h
        exact ⟨t, rfl⟩
      · rintro ⟨t, h⟩
        injection h with h1 h2
        exact ⟨h1, (ih bs).mpr ⟨t, h2⟩⟩

/-- Boolean `infixB` agrees with substring containment. -/
theorem infixB_iff (pat s : LCh) : infixB pat s = true ↔ ∃ a b, a ++ pat ++ b = s := by
  induction s with
  | nil =>
    simp only [infixB, prefB_iff]
    constructor
    · rintro ⟨t, h⟩
      exact ⟨[], t, by simpa using h⟩
    · rintro ⟨a, b, h⟩
      have ha : a = [] := by
        cases a with
        | nil => rfl
        | cons x xs => simp at h
      subst ha
      exact ⟨b, by simpa using h⟩
  | cons c t ih =>
    simp only [infixB, Bool.or_eq_true, prefB_iff, ih]
    constructor
    · rintro (⟨u, h⟩ | ⟨a, b, h⟩)
      · exact ⟨[], u, by simpa using h⟩
      · exact ⟨c :: a, b, by simp [← h]⟩
    · rintro ⟨a, b, h⟩
      cases a with
      | nil => exact Or.inl ⟨b, by simpa using h⟩
      | cons x xs =>
        injection h with h1 h2
        exact Or.inr ⟨xs, b, h2⟩

/-- A whitespace character stays whitespace under `upperChar`, and a
non-whitespace character stays non-whitespace. -/
theorem isWs_upperChar (c : Char) : isWs (upperChar c) = isWs c := by
  unfold upperChar
  split
  · rename_i h
    have hvalid : Nat.isValidChar (c.toNat - 32) := Or.inl (by omega)
    have hv : (Char.ofNat (c.toNat - 32)).toNat = c.toNat - 32 := by
      unfold Char.ofNat
      rw [dif_pos hvalid]
      rfl
    have h1 := h.1
    have h2 := h.2
    have hL : isWs (Char.ofNat (c.toNat - 32)) = false := by
      simp only [isWs, hv, Bool.or_eq_false_iff, beq_eq_false_iff_ne, ne_eq]
      omega
    have hR : isWs c = false := by
      simp only [isWs, Bool.or_eq_false_iff, beq_eq_false_iff_ne, ne_eq]
      omega
    rw [hL, hR]
  · rfl

theorem dropWhile_idem (p : Char → Bool) (l : LCh) :
    (l.dropWhile p).dropWhile p = l.dropWhile p := by
  induction l with
  | nil => rfl
  | cons a t ih =>
    by_cases h : p a
    · simp [List.dropWhile_cons, h, ih]
    · simp [List.dropWhile_cons, h]

theorem dropWhile_map_upper (l : LCh) :
    (pyUpper l).dropWhile isWs = pyUpper (l.dropWhile isWs) := by
  induction l with
  | nil => rfl
  | cons a t ih =>
    simp only [pyUpper, List.map_cons, List.dropWhile_cons, isWs_upperChar]
    by_cases h : isWs a
    · simpa [h, pyUpper] using ih
    · simp [h, pyUpper]

theorem dropWhile_prepend (p : Char → Bool) (l : LCh) :
    ∃ u, u ++ l.dropWhile p = l := by
  induction l with
  | nil => exact ⟨[], rfl⟩
  | cons a t ih =>
    by_cases h : p a
    · obtain ⟨u, hu⟩ := ih
      exact ⟨a :: u, by simp [List.dropWhile_cons, h, hu]⟩
    · exact ⟨[], by simp [List.dropWhile_cons, h]⟩

theorem dropWhile_len_le (p : Char → Bool) (l : LCh) :
    (l.dropWhile p).length ≤ l.length := by
  induction l with
  | nil => simp
  | cons a t ih =>
    by_cases h : p a
    · rw [List.dropWhile_cons, if_pos h]
      exact Nat.le_trans ih (Nat.le_succ _)
    · rw [List.dropWhile_cons, if_neg h]

theorem head_not_of_dropWhile_self {p : Char → Bool} {a : Char} {t : LCh}
    (h : (a :: t).dropWhile p = a :: t) : p a = false := by
  by_cases hp : p a
  · exfalso
    rw [List.dropWhile_cons, if_pos hp] at h
    have hlen : (t.dropWhile p).length ≤ t.length := dropWhile_len_le p t
    rw [h] at hlen
    simp at hlen
  · simpa using hp

theorem pyStripR_front (s : LCh) : ∃ t, pyStripR s ++ t = s := by
  obtain ⟨u, hu⟩ := dropWhile_prepend isWs s.reverse
  refine ⟨u.reverse, ?_⟩
  have := congrArg List.reverse hu
  simpa [pyStripR] using this

theorem pyStripR_idem (s : LCh) : pyStripR (pyStripR s) = pyStripR s := by
  unfold pyStripR
  rw [List.reverse_reverse, dropWhile_idem]

theorem pyStripL_of_stripped_stripR {s : LCh} (h : s.dropWhile isWs = s) :
    (pyStripR s).dropWhile isWs = pyStripR s := by
  obtain ⟨t, ht⟩ := pyStripR_front s
  cases hs : pyStripR s with
  | nil => rfl
  | cons a u =>
    rw [hs] at ht
    have hsa : s = a :: (u ++ t) := by rw [← ht]; simp
    have hpa : isWs a = false := by
      apply head_not_of_dropWhile_self (t := u ++ t)
      rw [← hsa]; exact h
    simp [List.dropWhile_cons, hpa]

theorem pyStrip_idem (s : LCh) : pyStrip (pyStrip s) = pyStrip s := by
  unfold pyStrip
  have h1 : (pyStripL s).dropWhile isWs = pyStripL s := dropWhile_idem isWs s
  have h2 : pyStripL (pyStripR (pyStripL s)) = pyStripR (pyStripL s) :=
    pyStripL_of_stripped_stripR h1
  rw [h2, pyStripR_idem]

theorem pyStripR_map_upper (s : LCh) :
    pyStripR (pyUpper s) = pyUpper (pyStripR s) := by
  unfold pyStripR
  have hrev : (pyUpper s).reverse = pyUpper s.reverse := by
    simp [pyUpper, List.map_reverse]
  rw [hrev, dropWhile_map_upper]
  simp [pyUpper, List.map_reverse]

theorem pyStrip_pyUpper (s : LCh) : pyStrip (pyUpper s) = pyUpper (pyStrip s) := by
  unfold pyStrip pyStripL
  rw [dropWhile_map_upper, ← pyStripR_map_upper]

theorem pyStrip_of_stripped {s : LCh} (h : pyStrip s = s) :
    pyStrip (pyUpper s) = pyUpper s := by
  rw [pyStrip_pyUpper, h]

theorem infixB_reverse (w x : LCh) :
    infixB w.reverse x.reverse = infixB w x := by
  have hiff : infixB w.reverse x.reverse = true ↔ infixB w x = true := by
    rw [infixB_iff, infixB_iff]
    constructor
    · rintro ⟨a, b, h⟩
      refine ⟨b.reverse, a.reverse, ?_⟩
      have := congrArg List.reverse h
      simpa [List.append_assoc] using this
    · rintro ⟨a, b, h⟩
      refine ⟨b.reverse, a.reverse, ?_⟩
      have := congrArg List.reverse h
      simpa [List.append_assoc] using this
  cases hw : infixB w x
  · cases hrv : infixB w.reverse x.reverse
    · rfl
    · exact absurd (hiff.mp hrv) (by simp [hw])
  · exact hiff.mpr hw

theorem infixB_dropWhile_of_wsfree {w : LCh} (hw : w ≠ [])
    (hc : ∀ c ∈ w, isWs c = false) (x : LCh)
    (h : infixB w x = true) : infixB w (x.dropWhile isWs) = true := by
  induction x with
  | nil => simpa using h
  | cons c t ih =>
    by_cases hws : isWs c
    · rw [List.dropWhile_cons, if_pos hws]
      apply ih
      simp only [infixB, Bool.or_eq_true] at h
      rcases h with hpre | hinf
      · exfalso
        rw [prefB_iff] at hpre
        obtain ⟨u, hu⟩ := hpre
        cases w with
        | nil => exact hw rfl
        | cons a as =>
          injection hu with h1 h2
          have := hc a (by simp)
          rw [h1] at this
          rw [this] at hws
          exact absurd hws (by simp)
      · exact hinf
    · rw [List.dropWhile_cons, if_neg hws]
      exact h

theorem infixB_of_infix_strip {w x : LCh}
    (h : infixB w (pyStrip x) = true) : infixB w x = true := by
  rw [infixB_iff] at h
  obtain ⟨a, b, hab⟩ := h
  obtain ⟨u, hu⟩ := dropWhile_prepend isWs x
  obtain ⟨t, ht⟩ := pyStripR_front (pyStripL x)
  rw [infixB_iff]
  refine ⟨u ++ a, b ++ t, ?_⟩
  have hx : u ++ (pyStrip x ++ t) = x := by
    unfold pyStrip at *
    rw [ht]
    exact hu
  rw [← hx, ← hab]
  simp [List.append_assoc]

/-- For a nonempty whitespace-free word, substring containment in a string
and in its stripped form coincide. -/
theorem infixB_strip_iff {w : LCh} (hw : w ≠ [])
    (hc : ∀ c ∈ w, isWs c = false) (x : LCh) :
    infixB w (pyStrip x) = true ↔ infixB w x = true := by
  constructor
  · exact infixB_of_infix_strip
  · intro h
    unfold pyStrip pyStripL
    have h1 : infixB w (x.dropWhile isWs) = true :=
      infixB_dropWhile_of_wsfree hw hc x h
    unfold pyStripR
    rw [← infixB_reverse w, List.reverse_reverse]
    apply infixB_dropWhile_of_wsfree
    · simpa using hw
    · intro c hcmem
      exact hc c (by simpa using hcmem)
    · rw [infixB_reverse]
      exact h1

/-! ## NL-Query Translator (src/llm/services/nl_query_service.py) -/

def sSELECT : LCh := ("SELECT").data

def semicolon : LCh := (";").data

/-- The blacklist of `_is_safe_query` (src/llm/services/nl_query_service.py,
lines 158-168), in source order. -/
def dangerous_keywords : List LCh :=
  [("INSERT").data, ("UPDATE").data, ("DELETE").data, ("DROP").data,
   ("CREATE").data, ("ALTER").data, ("TRUNCATE").data, ("EXEC").data,
   ("EXECUTE").data]

/-- Embeds `_is_safe_query` (lines 149-174): uppercase the statement, require the
stripped form to start with `SELECT`, and reject if any blacklisted keyword
occurs anywhere in the uppercased text. -/
def is_safe_query (sql : LCh) : Bool :=
  let sql_upper := pyUpper sql
  prefB sSELECT (pyStrip sql_upper) &&
    dangerous_keywords.all (fun kw => !(infixB kw sql_upper))

/-- Fuelled worker for `replaceAll`; the fuel starts at the string length
and each step consumes at least one character, so fuel never runs out. -/
def replaceAllGo (pat : LCh) : Nat → LCh → LCh
  | 0, rest => rest
  | _ + 1, [] => []
  | n + 1, c :: t =>
    if pat ≠ [] ∧ prefB pat (c :: t) = true then
      replaceAllGo pat n ((c :: t).drop pat.length)
    else
      c :: replaceAllGo pat n t

/-- Models `re.sub` with a literal pattern and empty replacement: removes every
non-overlapping occurrence, scanning left to right. -/
def replaceAll (pat : LCh) (s : LCh) : LCh :=
  replaceAllGo pat s.length s

def fenceSqlNl : LCh := ("```sql\n").data

def fenceNl : LCh := ("```\n").data

def fence : LCh := ("```").data

/-- The line-collecting loop of `_extract_sql` (lines 133-144): once a
stripped line starts (case-insensitively) with SELECT, collect stripped
lines until one ends in `;`. -/
def collectSql : List LCh → Bool → List LCh
  | [], _ => []
  | l :: rest, inq =>
    let line := pyStrip l
    let inq2 := inq || prefB sSELECT (pyUpper line)
    if inq2 then
      if suffB semicolon line then [line]
      else line :: collectSql rest inq2
    else collectSql rest inq2

/-- Embeds `_extract_sql` (lines 125-147): remove markdown fences, then collect the
first SELECT statement line block and join it with single spaces, stripped. -/
def extract_sql (response : LCh) : LCh :=
  let r1 := replaceAll fenceSqlNl response
  let r2 := replaceAll fenceNl r1
  let r3 := replaceAll fence r2
  pyStrip (List.intercalate ([' ']) (collectSql (splitNl r3) false))

theorem extract_sql_stripped (r : LCh) :
    pyStrip (extract_sql r) = extract_sql r := by
  unfold extract_sql
  exact pyStrip_idem _

/-- Python values appearing in query-result rows.  A date/datetime object is
carried together with its `isoformat()` string; `Decimal`/`float` values are
`vnum`. -/
inductive PyVal where
  | vint : Int → PyVal
  | vnum : Rat → PyVal
  | vstr : LCh → PyVal
  | vdate : LCh → PyVal
  | vnone : PyVal
deriving DecidableEq

abbrev PyRow := List (LCh × PyVal)

/-- One value conversion of `_format_results` (lines 200-207): dates become
their isoformat string, anything with `__float__` (ints, Decimals, floats)
becomes a float, everything else is unchanged. -/
def formatVal : PyVal → PyVal
  | .vdate iso => .vstr iso
  | .vint n => .vnum n
  | .vnum q => .vnum q
  | .vstr s => .vstr s
  | .vnone => .vnone

/-- Embeds `_format_results` (lines 192-210). -/
def format_results (results : List PyRow) : List PyRow :=
  match results with
  | [] => []
  | _ =>
    results.map (fun row => row.map (fun kv => (kv.1, formatVal kv.2)))

/-- The external collaborators of `process_query`: the LLM call generating
SQL (`.error` = LLMServiceError), the database execution (`none` = caught
execution exception, as in `_execute_query`), and the LLM call generating
the explanation (`.error` = any exception caught by
`_generate_explanation`). -/
structure NLEnv where
  genResp : Except LCh LCh
  execRes : LCh → Option (List PyRow)
  explainResp : Except LCh LCh

/-- The payload dict of `process_query`; fields that a branch does not set
are `none` (the Python dict has no such key). -/
structure QueryResult where
  success : Bool
  question : LCh
  error : Option LCh
  sql : Option LCh
  results : Option (List PyRow)
  explanation : Option LCh
  row_count : Option Nat
deriving DecidableEq

def msgNoGen : LCh := ("Could not generate SQL query").data

def msgValidation : LCh :=
  ("Query validation failed - only SELECT queries are allowed").data

def msgExecFail : LCh := ("Query execution failed").data

def msgFallback : LCh := ("Results retrieved successfully.").data

def msgAI (e : LCh) : LCh :=
  ("AI service error: ").data ++ e ++
    (". Please verify your OpenAI API key is valid and has sufficient credits.").data

/-- Embeds `process_query` (lines 25-90), returning the payload together with the
list of SQL statements actually executed against storage (empty when
execution is never reached). -/
def process_query (question : LCh) (env : NLEnv) : QueryResult × List LCh :=
  match env.genResp with
  | .error e =>
    (⟨false, question, some (msgAI e), none, none, none, none⟩, [])
  | .ok resp =>
    let sql := extract_sql resp
    if sql = [] then
      (⟨false, question, some msgNoGen, none, none, none, none⟩, [])
    else if is_safe_query sql = false then
      (⟨false, question, some msgValidation, none, none, none, none⟩, [])
    else
      match env.execRes sql with
      | none =>
        (⟨false, question, some msgExecFail, some sql, none, none, none⟩, [sql])
      | some rows =>
        let expl := match env.explainResp with
          | .ok t => t
          | .error _ => msgFallback
        (⟨true, question, none, some sql, some (format_results rows),
          some expl, some rows.length⟩, [sql])

theorem dangerous_keywords_wsfree :
    ∀ kw ∈ dangerous_keywords, kw ≠ [] ∧ ∀ c ∈ kw, isWs c = false := by
  decide

/-- C10: `_is_safe_query` is a pure substring test: it accepts exactly when
the trimmed uppercased statement starts with `SELECT` and none of the nine
blacklisted keywords occurs in it as a substring; consequently a benign
SELECT mentioning a column `created_at` (which contains `CREATE`) is
rejected. -/
theorem c10_is_safe_query_iff :
    (∀ s : LCh, is_safe_query s = true ↔
      (prefB sSELECT (pyStrip (pyUpper s)) = true ∧
        ∀ kw ∈ dangerous_keywords, infixB kw (pyStrip (pyUpper s)) = false)) ∧
    is_safe_query (("SELECT created_at FROM sales").data) = false := by
  constructor
  · intro s
    unfold is_safe_query
    simp only [Bool.and_eq_true, List.all_eq_true, Bool.not_eq_true']
    constructor
    · rintro ⟨h1, h2⟩
      refine ⟨h1, fun kw hkw => ?_⟩
      obtain ⟨hne, hws⟩ := dangerous_keywords_wsfree kw hkw
      have := h2 kw hkw
      cases hinf : infixB kw (pyStrip (pyUpper s))
      · rfl
      · exact absurd ((infixB_strip_iff hne hws (pyUpper s)).mp hinf) (by simp [this])
    · rintro ⟨h1, h2⟩
      refine ⟨h1, fun kw hkw => ?_⟩
      obtain ⟨hne, hws⟩ := dangerous_keywords_wsfree kw hkw
      have := h2 kw hkw
      cases hinf : infixB kw (pyUpper s)
      · rfl
      · exact absurd ((infixB_strip_iff hne hws (pyUpper s)).mpr hinf) (by simp [this])
  · decide

theorem c10_is_safe_query_iff_witness :
    is_safe_query (("SELECT make FROM vehicles").data) = true :=
  (c10_is_safe_query_iff.1 (("SELECT make FROM vehicles").data)).mpr
    ⟨by decide, by decide⟩

/-- C1: any candidate SQL statement produced by `_extract_sql` that does not
case-insensitively start with `SELECT`, or that contains a blacklisted
keyword anywhere in its uppercased text, is rejected by `process_query`
with a validation failure and nothing is ever executed against storage. -/
theorem c1_unsafe_candidate_rejected (question : LCh) (env : NLEnv) (resp : LCh)
    (hgen : env.genResp = Except.ok resp)
    (hbad : prefB sSELECT (pyUpper (extract_sql resp)) = false ∨
      ∃ kw ∈ dangerous_keywords, infixB kw (pyUpper (extract_sql resp)) = true) :
    (process_query question env).1.success = false ∧
    (process_query question env).2 = [] ∧
    (extract_sql resp ≠ [] →
      (process_query question env).1.error = some msgValidation) := by
  unfold process_query
  rw [hgen]
  by_cases hnil : extract_sql resp = []
  · simp [hnil]
  · have hsafe : is_safe_query (extract_sql resp) = false := by
      unfold is_safe_query
      rcases hbad with hpre | ⟨kw, hkw, hinf⟩
      · have hstrip : pyStrip (pyUpper (extract_sql resp)) = pyUpper (extract_sql resp) :=
          pyStrip_of_stripped (extract_sql_stripped resp)
        simp [hstrip, hpre]
      · have : (dangerous_keywords.all fun kw => !infixB kw (pyUpper (extract_sql resp))) = false := by
          rw [List.all_eq_false]
          exact ⟨kw, hkw, by simp [hinf]⟩
        simp [this]
    simp [hnil, hsafe]

theorem c1_unsafe_candidate_rejected_witness :
    (process_query (("show me sales").data)
        ⟨Except.ok (("SELECT * FROM sales; DROP TABLE sales;").data),
         fun _ => some [], Except.ok []⟩).1.success = false ∧
    (process_query (("show me sales").data)
        ⟨Except.ok (("SELECT * FROM sales; DROP TABLE sales;").data),
         fun _ => some [], Except.ok []⟩).2 = [] ∧
    (process_query (("show me sales").data)
        ⟨Except.ok (("SELECT * FROM sales; DROP TABLE sales;").data),
         fun _ => some [], Except.ok []⟩).1.error = some msgValidation := by
  have h := c1_unsafe_candidate_rejected (("show me sales").data)
    ⟨Except.ok (("SELECT * FROM sales; DROP TABLE sales;").data),
     fun _ => some [], Except.ok []⟩
    (("SELECT * FROM sales; DROP TABLE sales;").data) rfl
    (Or.inr ⟨("DROP").data, by decide, by decide⟩)
  exact ⟨h.1, h.2.1, h.2.2 (by decide)⟩

/-- C9: once SQL generation, validation and execution have succeeded, a
failing explanation LLM call does not fail the query: `process_query`
still returns `success = true` with the generated SQL, the formatted rows
and the fixed fallback explanation text. -/
theorem c9_explanation_failure_not_fatal (question resp errExpl : LCh)
    (env : NLEnv) (rows : List PyRow)
    (hgen : env.genResp = Except.ok resp)
    (hsql : extract_sql resp ≠ [])
    (hsafe : is_safe_query (extract_sql resp) = true)
    (hexec : env.execRes (extract_sql resp) = some rows)
    (hexpl : env.explainResp = Except.error errExpl) :
    process_query question env =
      (⟨true, question, none, some (extract_sql resp),
        some (format_results rows), some msgFallback, some rows.length⟩,
       [extract_sql resp]) := by
  unfold process_query
  rw [hgen]
  simp [hsql, hsafe, hexec, hexpl]

theorem c9_explanation_failure_not_fatal_witness :
    (process_query (("total sales").data)
        ⟨Except.ok (("SELECT * FROM sales;").data),
         fun _ => some [[((("total_amount").data : LCh), PyVal.vint 5)]],
         Except.error (("boom").data)⟩).1.success = true ∧
    (process_query (("total sales").data)
        ⟨Except.ok (("SELECT * FROM sales;").data),
         fun _ => some [[((("total_amount").data : LCh), PyVal.vint 5)]],
         Except.error (("boom").data)⟩).1.explanation = some msgFallback := by
  have h := c9_explanation_failure_not_fatal (("total sales").data)
    (("SELECT * FROM sales;").data) (("boom").data)
    ⟨Except.ok (("SELECT * FROM sales;").data),
     fun _ => some [[((("total_amount").data : LCh), PyVal.vint 5)]],
     Except.error (("boom").data)⟩
    [[((("total_amount").data : LCh), PyVal.vint 5)]]
    rfl (by decide) (by decide) rfl rfl
  rw [h]
  exact ⟨rfl, rfl⟩

/-! ## Analytics data model (src/pipeline/extractors/data_extractor.py)

A sales row as produced by `extract_sales` / `extract_sales_with_vehicle_info`
(the joined vehicle columns are carried on the same row).  Dates are modelled
as integer day ordinals, money as `Rat`. -/

structure SaleRow where
  id : Nat
  vehicle_id : Nat
  sale_date : Int
  quantity : Int
  unit_price : Rat
  total_amount : Rat
  discount_applied : Rat
  make : LCh
  model : LCh
  category : LCh
deriving DecidableEq

/-- An inventory row as produced by `extract_inventory_with_vehicle_info`. -/
structure InvRow where
  inventory_id : Nat
  vehicle_id : Nat
  quantity_available : Int
  quantity_reserved : Int
  msrp : Rat
  status : LCh
deriving DecidableEq

/-- Embeds `extract_sales` (data_extractor.py lines 96-142): the stored sales rows
filtered by the optional inclusive date window; `allRows` stands for the
sales table. -/
def extract_sales (allRows : List SaleRow) (start_date end_date : Option Int) :
    List SaleRow :=
  allRows.filter (fun r =>
    (match start_date with
     | some d => decide (d ≤ r.sale_date)
     | none => true) &&
    (match end_date with
     | some d => decide (r.sale_date ≤ d)
     | none => true))

def sumAmt (rows : List SaleRow) : Rat := (rows.map (fun r => r.total_amount)).sum

def sumQty (rows : List SaleRow) : Int := (rows.map (fun r => r.quantity)).sum

def sumDisc (rows : List SaleRow) : Rat :=
  (rows.map (fun r => r.discount_applied)).sum

/-- Models `str(date)`; the exact text never matters to the claims, only that it is
derived from the date. -/
def dateStr (d : Int) : LCh :=
  if d < 0 then '-' :: Nat.toDigits 10 d.natAbs else Nat.toDigits 10 d.natAbs

def optDateVal : Option Int → PyVal
  | some d => PyVal.vstr (dateStr d)
  | none => PyVal.vnone

/-! Python dicts with runtime key lookup, as association lists. -/

abbrev PyDict := List (LCh × PyVal)

/-- Python `d[k]` on a dict: a missing key raises `KeyError`. -/
def dlookup (d : PyDict) (k : LCh) : Except LCh PyVal :=
  match d.find? (fun kv => kv.1 == k) with
  | some kv => Except.ok kv.2
  | none => Except.error (("KeyError: ").data ++ k)

/-- Python `d[k]` used as a number. -/
def dlookupNum (d : PyDict) (k : LCh) : Except LCh Rat :=
  match dlookup d k with
  | Except.ok (PyVal.vint n) => Except.ok (n : Rat)
  | Except.ok (PyVal.vnum q) => Except.ok q
  | Except.ok _ => Except.error (("TypeError: ").data ++ k)
  | Except.error e => Except.error e

def kTotalRevenue : LCh := ("total_revenue").data

def kTotalUnits : LCh := ("total_units").data

def kTotalTransactions : LCh := ("total_transactions").data

def kAvgTransactionValue : LCh := ("avg_transaction_value").data

def kAvgDiscount : LCh := ("avg_discount").data

def kPeriodStart : LCh := ("period_start").data

def kPeriodEnd : LCh := ("period_end").data

def kTotalReserved : LCh := ("total_reserved").data

def kTotalValue : LCh := ("total_value").data

def kUniqueVehicles : LCh := ("unique_vehicles").data

def kLowStockCount : LCh := ("low_stock_count").data

def kOutOfStockCount : LCh := ("out_of_stock_count").data

def kActiveCount : LCh := ("active_count").data

/-- Embeds `get_sales_summary` (sales_analytics.py lines 24-55): an empty extraction
yields the fixed five-key zero dict; otherwise totals, averages and the
period bounds. -/
def get_sales_summary (allRows : List SaleRow) (start_date end_date : Option Int) :
    PyDict :=
  let df := extract_sales allRows start_date end_date
  if df = [] then
    [(kTotalRevenue, PyVal.vint 0), (kTotalUnits, PyVal.vint 0),
     (kTotalTransactions, PyVal.vint 0), (kAvgTransactionValue, PyVal.vint 0),
     (kAvgDiscount, PyVal.vint 0)]
  else
    [(kTotalRevenue, PyVal.vnum (sumAmt df)),
     (kTotalUnits, PyVal.vint (sumQty df)),
     (kTotalTransactions, PyVal.vint (df.length : Int)),
     (kAvgTransactionValue, PyVal.vnum (sumAmt df / (df.length : Rat))),
     (kAvgDiscount, PyVal.vnum (sumDisc df / (df.length : Rat))),
     (kPeriodStart, optDateVal start_date),
     (kPeriodEnd, optDateVal end_date)]

def sActive : LCh := ("active").data

def sLow : LCh := ("low").data

def sOutOfStock : LCh := ("out_of_stock").data

def countStatus (inv : List InvRow) (st : LCh) : Nat :=
  (inv.filter (fun r => r.status == st)).length

def sumAvail (inv : List InvRow) : Int :=
  (inv.map (fun r => r.quantity_available)).sum

def sumReserved (inv : List InvRow) : Int :=
  (inv.map (fun r => r.quantity_reserved)).sum

def sumValue (inv : List InvRow) : Rat :=
  (inv.map (fun r => (r.quantity_available : Rat) * r.msrp)).sum

/-- Pandas `df["vehicle_id"].nunique()`: the number of distinct vehicle ids. -/
def countUniq : List Nat → Nat
  | [] => 0
  | x :: xs => (if xs.contains x then 0 else 1) + countUniq xs

/-- Embeds `get_inventory_summary` (inventory_analytics.py lines 23-52).  Note the
empty-case dict has neither `total_reserved` nor `active_count`. -/
def get_inventory_summary (inv : List InvRow) : PyDict :=
  if inv = [] then
    [(kTotalUnits, PyVal.vint 0), (kTotalValue, PyVal.vint 0),
     (kUniqueVehicles, PyVal.vint 0), (kLowStockCount, PyVal.vint 0),
     (kOutOfStockCount, PyVal.vint 0)]
  else
    [(kTotalUnits, PyVal.vint (sumAvail inv)),
     (kTotalReserved, PyVal.vint (sumReserved inv)),
     (kTotalValue, PyVal.vnum (sumValue inv)),
     (kUniqueVehicles, PyVal.vint (countUniq (inv.map (fun r => r.vehicle_id)) : Int)),
     (kLowStockCount, PyVal.vint (countStatus inv sLow : Int)),
     (kOutOfStockCount, PyVal.vint (countStatus inv sOutOfStock : Int)),
     (kActiveCount, PyVal.vint (countStatus inv sActive : Int))]

def kAvgDailyRevenue : LCh := ("avg_daily_revenue").data

def kTotalUnitsSold : LCh := ("total_units_sold").data

def kAvgUnitsPerTransaction : LCh := ("avg_units_per_transaction").data

def kAvgDiscountPct : LCh := ("avg_discount_pct").data

def kTotalInventoryUnits : LCh := ("total_inventory_units").data

def kTotalInventoryValue : LCh := ("total_inventory_value").data

def kInventoryTurnoverRate : LCh := ("inventory_turnover_rate").data

def kLowStockItems : LCh := ("low_stock_items").data

def kOutOfStockItems : LCh := ("out_of_stock_items").data

def kStockAvailabilityRate : LCh := ("stock_availability_rate").data

def kPeriodDays : LCh := ("period_days").data

/-- Embeds `calculate_all_kpis` (kpi_calculator.py lines 23-100).  `today` stands
for `datetime.now().date()`; the date defaulting, the two summary calls and
every dict lookup follow the source.  A failed lookup (Python `KeyError`)
surfaces as `Except.error`; the only lookup that can fail is `active_count`
on the empty-inventory summary. -/
def calculate_all_kpis (sales : List SaleRow) (inv : List InvRow) (today : Int)
    (start_date end_date : Option Int) : Except LCh PyDict := do
  let end_d := end_date.getD today
  let start_d := start_date.getD (end_d - 30)
  let sales_summary := get_sales_summary sales (some start_d) (some end_d)
  let inventory_summary := get_inventory_summary inv
  let days_in_period : Int := end_d - start_d + 1
  let srev ← dlookupNum sales_summary kTotalRevenue
  let avg_daily_revenue : Rat :=
    if days_in_period > 0 then srev / (days_in_period : Rat) else 0
  let sunits ← dlookupNum sales_summary kTotalUnits
  let iunits ← dlookupNum inventory_summary kTotalUnits
  let turnover_rate : Rat := if iunits > 0 then sunits / iunits else 0
  let satv ← dlookupNum sales_summary kAvgTransactionValue
  let stx ← dlookupNum sales_summary kTotalTransactions
  let avg_units_per_tx : Rat := if stx > 0 then sunits / stx else 0
  let sdisc ← dlookupNum sales_summary kAvgDiscount
  let ivalue ← dlookupNum inventory_summary kTotalValue
  let ilow ← dlookupNum inventory_summary kLowStockCount
  let iout ← dlookupNum inventory_summary kOutOfStockCount
  let iactive ← dlookupNum inventory_summary kActiveCount
  let rate : Rat :=
    if iactive + ilow + iout > 0 then
      (iactive + ilow) / (iactive + ilow + iout) * 100
    else 0
  Except.ok
    [(kTotalRevenue, PyVal.vnum srev),
     (kAvgDailyRevenue, PyVal.vnum avg_daily_revenue),
     (kAvgTransactionValue, PyVal.vnum satv),
     (kTotalUnitsSold, PyVal.vnum sunits),
     (kTotalTransactions, PyVal.vnum stx),
     (kAvgUnitsPerTransaction, PyVal.vnum avg_units_per_tx),
     (kAvgDiscountPct, PyVal.vnum sdisc),
     (kTotalInventoryUnits, PyVal.vnum iunits),
     (kTotalInventoryValue, PyVal.vnum ivalue),
     (kInventoryTurnoverRate, PyVal.vnum turnover_rate),
     (kLowStockItems, PyVal.vnum ilow),
     (kOutOfStockItems, PyVal.vnum iout),
     (kStockAvailabilityRate, PyVal.vnum rate),
     (kPeriodStart, PyVal.vstr (dateStr start_d)),
     (kPeriodEnd, PyVal.vstr (dateStr end_d)),
     (kPeriodDays, PyVal.vint days_in_period)]

/-- The comparison record of `compare_periods` (sales_analytics.py lines
157-191); the nested `current_period`/`previous_period` dicts are carried
verbatim. -/
structure PeriodComparison where
  current_period : PyDict
  previous_period : PyDict
  revenue_change : Rat
  revenue_change_pct : Rat
  units_change : Rat
  units_change_pct : Rat
deriving DecidableEq

/-- Embeds `compare_periods` (sales_analytics.py lines 157-191). -/
def compare_periods (allRows : List SaleRow) (cs ce ps pe : Int) :
    Except LCh PeriodComparison := do
  let current := get_sales_summary allRows (some cs) (some ce)
  let previous := get_sales_summary allRows (some ps) (some pe)
  let cr ← dlookupNum current kTotalRevenue
  let pr ← dlookupNum previous kTotalRevenue
  let cu ← dlookupNum current kTotalUnits
  let pu ← dlookupNum previous kTotalUnits
  Except.ok
    ⟨current, previous, cr - pr,
     (if pr > 0 then (cr - pr) / pr * 100 else 0),
     cu - pu,
     (if pu > 0 then (cu - pu) / pu * 100 else 0)⟩

theorem dlookup_head (k : LCh) (v : PyVal) (d : PyDict) :
    dlookup ((k, v) :: d) k = Except.ok v := by
  simp [dlookup, List.find?]

theorem dlookup_skip {k' k : LCh} (h : (k' == k) = false) (v : PyVal) (d : PyDict) :
    dlookup ((k', v) :: d) k = dlookup d k := by
  simp [dlookup, List.find?, h]

theorem dlookup_cons (k' k : LCh) (v : PyVal) (d : PyDict) :
    dlookup ((k', v) :: d) k =
      if (k' == k) = true then Except.ok v else dlookup d k := by
  simp only [dlookup, List.find?]
  by_cases h : (k' == k) = true
  · simp [h]
  · simp [h]

theorem ebind_ok {α β : Type} (a : α) (f : α → Except LCh β) :
    (Except.ok a >>= f : Except LCh β) = f a := rfl

theorem dlookupNum_sales_revenue (a : List SaleRow) (s e : Option Int) :
    dlookupNum (get_sales_summary a s e) kTotalRevenue =
      Except.ok (sumAmt (extract_sales a s e)) := by
  unfold get_sales_summary
  by_cases h : extract_sales a s e = []
  · simp +decide [h, dlookupNum, dlookup_cons, sumAmt]
  · simp +decide [h, dlookupNum, dlookup_cons]

theorem dlookupNum_sales_units (a : List SaleRow) (s e : Option Int) :
    dlookupNum (get_sales_summary a s e) kTotalUnits =
      Except.ok ((sumQty (extract_sales a s e) : Rat)) := by
  unfold get_sales_summary
  by_cases h : extract_sales a s e = []
  · simp +decide [h, dlookupNum, dlookup_cons, sumQty]
  · simp +decide [h, dlookupNum, dlookup_cons]

theorem dlookupNum_sales_tx (a : List SaleRow) (s e : Option Int) :
    dlookupNum (get_sales_summary a s e) kTotalTransactions =
      Except.ok (((extract_sales a s e).length : Rat)) := by
  unfold get_sales_summary
  by_cases h : extract_sales a s e = []
  · simp +decide [h, dlookupNum, dlookup_cons]
  · simp +decide [h, dlookupNum, dlookup_cons]

theorem dlookupNum_sales_atv (a : List SaleRow) (s e : Option Int) :
    dlookupNum (get_sales_summary a s e) kAvgTransactionValue =
      Except.ok (if extract_sales a s e = [] then 0 else
        sumAmt (extract_sales a s e) / ((extract_sales a s e).length : Rat)) := by
  unfold get_sales_summary
  by_cases h : extract_sales a s e = []
  · simp +decide [h, dlookupNum, dlookup_cons]
  · simp +decide [h, dlookupNum, dlookup_cons]

theorem dlookupNum_sales_disc (a : List SaleRow) (s e : Option Int) :
    dlookupNum (get_sales_summary a s e) kAvgDiscount =
      Except.ok (if extract_sales a s e = [] then 0 else
        sumDisc (extract_sales a s e) / ((extract_sales a s e).length : Rat)) := by
  unfold get_sales_summary
  by_cases h : extract_sales a s e = []
  · simp +decide [h, dlookupNum, dlookup_cons]
  · simp +decide [h, dlookupNum, dlookup_cons]

theorem dlookupNum_inv_units (inv : List InvRow) :
    dlookupNum (get_inventory_summary inv) kTotalUnits =
      Except.ok ((sumAvail inv : Rat)) := by
  unfold get_inventory_summary
  by_cases h : inv = []
  · simp +decide [h, dlookupNum, dlookup_cons, sumAvail]
  · simp +decide [h, dlookupNum, dlookup_cons]

theorem dlookupNum_inv_value (inv : List InvRow) :
    dlookupNum (get_inventory_summary inv) kTotalValue =
      Except.ok (sumValue inv) := by
  unfold get_inventory_summary
  by_cases h : inv = []
  · simp +decide [h, dlookupNum, dlookup_cons, sumValue]
  · simp +decide [h, dlookupNum, dlookup_cons]

theorem dlookupNum_inv_low (inv : List InvRow) :
    dlookupNum (get_inventory_summary inv) kLowStockCount =
      Except.ok ((countStatus inv sLow : Rat)) := by
  unfold get_inventory_summary
  by_cases h : inv = []
  · simp +decide [h, dlookupNum, dlookup_cons, countStatus]
  · simp +decide [h, dlookupNum, dlookup_cons]

theorem dlookupNum_inv_out (inv : List InvRow) :
    dlookupNum (get_inventory_summary inv) kOutOfStockCount =
      Except.ok ((countStatus inv sOutOfStock : Rat)) := by
  unfold get_inventory_summary
  by_cases h : inv = []
  · simp +decide [h, dlookupNum, dlookup_cons, countStatus]
  · simp +decide [h, dlookupNum, dlookup_cons]

theorem dlookupNum_inv_active {inv : List InvRow} (hinv : inv ≠ []) :
    dlookupNum (get_inventory_summary inv) kActiveCount =
      Except.ok ((countStatus inv sActive : Rat)) := by
  unfold get_inventory_summary
  simp +decide [hinv, dlookupNum, dlookup_cons]

/-- C6: with zero sales rows in the requested window, `get_sales_summary`
returns exactly the five-key zero mapping (no other keys, no exception). -/
theorem c6_empty_sales_summary (allRows : List SaleRow) (s e : Option Int)
    (h : extract_sales allRows s e = []) :
    get_sales_summary allRows s e =
      [(kTotalRevenue, PyVal.vint 0), (kTotalUnits, PyVal.vint 0),
       (kTotalTransactions, PyVal.vint 0), (kAvgTransactionValue, PyVal.vint 0),
       (kAvgDiscount, PyVal.vint 0)] := by
  unfold get_sales_summary
  simp [h]

theorem c6_empty_sales_summary_witness :
    get_sales_summary [] none none =
      [(kTotalRevenue, PyVal.vint 0), (kTotalUnits, PyVal.vint 0),
       (kTotalTransactions, PyVal.vint 0), (kAvgTransactionValue, PyVal.vint 0),
       (kAvgDiscount, PyVal.vint 0)] :=
  c6_empty_sales_summary [] none none rfl

theorem sumAmt_nonneg {rows : List SaleRow}
    (h : ∀ r ∈ rows, 0 ≤ r.total_amount) : 0 ≤ sumAmt rows := by
  unfold sumAmt
  apply List.sum_nonneg
  intro x hx
  obtain ⟨r, hr, rfl⟩ := List.mem_map.mp hx
  exact h r hr

theorem sumQty_nonneg {rows : List SaleRow}
    (h : ∀ r ∈ rows, 0 ≤ r.quantity) : 0 ≤ sumQty rows := by
  unfold sumQty
  apply List.sum_nonneg
  intro x hx
  obtain ⟨r, hr, rfl⟩ := List.mem_map.mp hx
  exact h r hr

theorem extract_sales_mem {r : SaleRow} {a : List SaleRow} {s e : Option Int}
    (h : r ∈ extract_sales a s e) : r ∈ a :=
  (List.mem_filter.mp h).1

/-- C5: `compare_periods` returns `revenue_change_pct` equal to 0 whenever
the previous-period total revenue is 0 (no NaN, no exception), and the
usual percentage formula otherwise; the same convention for
`units_change_pct`.  The nonnegativity hypotheses reflect the data model
(prices and quantities are nonnegative), under which the Python `> 0` guard
coincides with the `= 0` convention of the claim. -/
theorem c5_compare_periods_pct (allRows : List SaleRow) (cs ce ps pe : Int)
    (hamt : ∀ r ∈ allRows, 0 ≤ r.total_amount)
    (hqty : ∀ r ∈ allRows, 0 ≤ r.quantity) :
    ∃ c : PeriodComparison,
      compare_periods allRows cs ce ps pe = Except.ok c ∧
      (sumAmt (extract_sales allRows (some ps) (some pe)) = 0 →
        c.revenue_change_pct = 0) ∧
      (sumAmt (extract_sales allRows (some ps) (some pe)) ≠ 0 →
        c.revenue_change_pct =
          (sumAmt (extract_sales allRows (some cs) (some ce)) -
            sumAmt (extract_sales allRows (some ps) (some pe))) /
            sumAmt (extract_sales allRows (some ps) (some pe)) * 100) ∧
      (sumQty (extract_sales allRows (some ps) (some pe)) = 0 →
        c.units_change_pct = 0) ∧
      (sumQty (extract_sales allRows (some ps) (some pe)) ≠ 0 →
        c.units_change_pct =
          ((sumQty (extract_sales allRows (some cs) (some ce)) : Rat) -
            (sumQty (extract_sales allRows (some ps) (some pe)) : Rat)) /
            (sumQty (extract_sales allRows (some ps) (some pe)) : Rat) * 100) := by
  have hprev_amt : 0 ≤ sumAmt (extract_sales allRows (some ps) (some pe)) :=
    sumAmt_nonneg (fun r hr => hamt r (extract_sales_mem hr))
  have hprev_qty : 0 ≤ sumQty (extract_sales allRows (some ps) (some pe)) :=
    sumQty_nonneg (fun r hr => hqty r (extract_sales_mem hr))
  simp only [compare_periods]
  rw [dlookupNum_sales_revenue, dlookupNum_sales_revenue,
    dlookupNum_sales_units, dlookupNum_sales_units]
  simp only [ebind_ok]
  refine ⟨_, rfl, ?_, ?_, ?_, ?_⟩
  · intro h0
    simp only [h0]
    norm_num
  · intro hne
    have hpos : 0 < sumAmt (extract_sales allRows (some ps) (some pe)) :=
      lt_of_le_of_ne hprev_amt (Ne.symm hne)
    simp only [if_pos hpos]
  · intro h0
    simp only [h0]
    norm_num
  · intro hne
    have hpos : (0 : Rat) < (sumQty (extract_sales allRows (some ps) (some pe)) : Rat) := by
      have : 0 < sumQty (extract_sales allRows (some ps) (some pe)) :=
        lt_of_le_of_ne hprev_qty (Ne.symm hne)
      exact_mod_cast this
    simp only [if_pos hpos]

/-- C2 (supporting evaluation): with an empty inventory table,
`calculate_all_kpis` does not return the zero-valued KPI structure — it
raises a `KeyError` on `active_count`, because the empty-case dict of
`get_inventory_summary` omits the `active_count` key that the
`stock_availability_rate` computation looks up. -/
theorem c2_empty_inventory_keyerror (today : Int) :
    calculate_all_kpis [] [] today none none =
      Except.error (("KeyError: ").data ++ kActiveCount) := rfl

/-- The `stock_availability_rate` expression of `calculate_all_kpis`
(kpi_calculator.py lines 72-88), as a function of the inventory rows. -/
def availRate (inv : List InvRow) : Rat :=
  let a : Rat := (countStatus inv sActive : Rat)
  let l : Rat := (countStatus inv sLow : Rat)
  let o : Rat := (countStatus inv sOutOfStock : Rat)
  if a + l + o > 0 then (a + l) / (a + l + o) * 100 else 0

theorem availRate_nonneg (inv : List InvRow) : 0 ≤ availRate inv := by
  simp only [availRate]
  split
  · apply mul_nonneg
    · apply div_nonneg
      · positivity
      · positivity
    · norm_num
  · exact le_refl 0

theorem availRate_le_100 (inv : List InvRow) : availRate inv ≤ 100 := by
  simp only [availRate]
  split
  · rename_i hpos
    have hle :
        ((countStatus inv sActive : Rat) + (countStatus inv sLow : Rat)) ≤
          ((countStatus inv sActive : Rat) + (countStatus inv sLow : Rat) +
            (countStatus inv sOutOfStock : Rat)) := by
      have : (0 : Rat) ≤ (countStatus inv sOutOfStock : Rat) := by positivity
      linarith
    have hdiv :
        ((countStatus inv sActive : Rat) + (countStatus inv sLow : Rat)) /
          ((countStatus inv sActive : Rat) + (countStatus inv sLow : Rat) +
            (countStatus inv sOutOfStock : Rat)) ≤ 1 :=
      (div_le_one hpos).mpr hle
    calc ((countStatus inv sActive : Rat) + (countStatus inv sLow : Rat)) /
          ((countStatus inv sActive : Rat) + (countStatus inv sLow : Rat) +
            (countStatus inv sOutOfStock : Rat)) * 100
        ≤ 1 * 100 := by
          apply mul_le_mul_of_nonneg_right hdiv
          norm_num
      _ = 100 := by norm_num
  · norm_num

theorem availRate_zero_of_counts {inv : List InvRow}
    (h : countStatus inv sActive + countStatus inv sLow +
      countStatus inv sOutOfStock = 0) : availRate inv = 0 := by
  have ha : countStatus inv sActive = 0 := by omega
  have hl : countStatus inv sLow = 0 := by omega
  have ho : countStatus inv sOutOfStock = 0 := by omega
  simp [availRate, ha, hl, ho]

/-- C4: whenever the inventory extraction is nonempty, `calculate_all_kpis`
succeeds and its `stock_availability_rate` lies in `[0, 100]` and is 0 when
`active_count + low_stock_count + out_of_stock_count = 0`; but with an empty
inventory (the "no inventory at all" case of the claim) the method raises a
`KeyError` instead of returning 0 — the code bug documented with C2. -/
theorem c4_stock_availability_rate :
    (∀ (sales : List SaleRow) (inv : List InvRow) (today : Int)
        (s e : Option Int), inv ≠ [] →
      ∃ d, calculate_all_kpis sales inv today s e = Except.ok d ∧
        dlookup d kStockAvailabilityRate = Except.ok (PyVal.vnum (availRate inv)) ∧
        0 ≤ availRate inv ∧ availRate inv ≤ 100 ∧
        (countStatus inv sActive + countStatus inv sLow +
          countStatus inv sOutOfStock = 0 → availRate inv = 0)) ∧
    (∀ today : Int, ∃ msg,
      calculate_all_kpis [] [] today none none = Except.error msg) := by
  constructor
  · intro sales inv today s e hinv
    simp only [calculate_all_kpis]
    rw [dlookupNum_sales_revenue, dlookupNum_sales_units, dlookupNum_inv_units,
      dlookupNum_sales_atv, dlookupNum_sales_tx, dlookupNum_sales_disc,
      dlookupNum_inv_value, dlookupNum_inv_low, dlookupNum_inv_out,
      dlookupNum_inv_active hinv]
    simp only [ebind_ok]
    refine ⟨_, rfl, ?_, availRate_nonneg inv, availRate_le_100 inv,
      fun h => availRate_zero_of_counts h⟩
    rw [dlookup_skip (by decide), dlookup_skip (by decide),
      dlookup_skip (by decide), dlookup_skip (by decide),
      dlookup_skip (by decide), dlookup_skip (by decide),
      dlookup_skip (by decide), dlookup_skip (by decide),
      dlookup_skip (by decide), dlookup_skip (by decide),
      dlookup_skip (by decide), dlookup_skip (by decide), dlookup_head]
    simp [availRate]
  · intro today
    exact ⟨("KeyError: ").data ++ kActiveCount, rfl⟩

theorem c4_stock_availability_rate_witness :
    0 ≤ availRate [⟨1, 1, 5, 0, 30000, sActive⟩] ∧
    availRate [⟨1, 1, 5, 0, 30000, sActive⟩] ≤ 100 ∧
    ∃ d, calculate_all_kpis [] [⟨1, 1, 5, 0, 30000, sActive⟩] 0 none none =
      Except.ok d := by
  obtain ⟨d, hd, _, h0, h100, _⟩ :=
    c4_stock_availability_rate.1 [] [⟨1, 1, 5, 0, 30000, sActive⟩] 0 none none
      (by decide)
  exact ⟨h0, h100, d, hd⟩

theorem c5_compare_periods_pct_witness :
    ∃ c, compare_periods [⟨1, 1, 10, 2, 50, 100, 0, [], [], []⟩] 10 20 0 5 =
        Except.ok c ∧
      c.revenue_change_pct = 0 ∧ c.units_change_pct = 0 := by
  obtain ⟨c, hc, h0, _, hu0, _⟩ :=
    c5_compare_periods_pct [⟨1, 1, 10, 2, 50, 100, 0, [], [], []⟩] 10 20 0 5
      (by intro r hr
          simp only [List.mem_singleton] at hr
          subst hr
          norm_num)
      (by intro r hr
          simp only [List.mem_singleton] at hr
          subst hr
          norm_num)
  exact ⟨c, hc, h0 rfl, hu0 rfl⟩

/-! ## Stable insertion sort (models Python `list.sort` / pandas sorts) -/

def insB {α : Type} (pri : α → α → Bool) (x : α) : List α → List α
  | [] => [x]
  | y :: ys => if pri x y then x :: y :: ys else y :: insB pri x ys

def sortB {α : Type} (pri : α → α → Bool) : List α → List α
  | [] => []
  | x :: xs => insB pri x (sortB pri xs)

theorem insB_perm {α : Type} (pri : α → α → Bool) (x : α) (l : List α) :
    List.Perm (insB pri x l) (x :: l) := by
  induction l with
  | nil => rfl
  | cons y ys ih =>
    simp only [insB]
    by_cases h : pri x y
    · rw [if_pos h]
    · rw [if_neg h]
      exact (ih.cons y).trans (List.Perm.swap x y ys)

theorem sortB_perm {α : Type} (pri : α → α → Bool) (l : List α) :
    List.Perm (sortB pri l) l := by
  induction l with
  | nil => rfl
  | cons x xs ih =>
    simp only [sortB]
    exact (insB_perm pri x (sortB pri xs)).trans (ih.cons x)

theorem mem_insB {α : Type} {pri : α → α → Bool} {x a : α} {l : List α} :
    a ∈ insB pri x l ↔ a = x ∨ a ∈ l := by
  rw [(insB_perm pri x l).mem_iff]
  simp

theorem insB_pairwise {α : Type} {pri : α → α → Bool}
    (htot : ∀ a b, pri a b = true ∨ pri b a = true)
    (htr : ∀ a b c, pri a b = true → pri b c = true → pri a c = true)
    (x : α) {l : List α} (hl : List.Pairwise (fun a b => pri a b = true) l) :
    List.Pairwise (fun a b => pri a b = true) (insB pri x l) := by
  induction l with
  | nil => simp [insB]
  | cons y ys ih =>
    simp only [insB]
    rcases List.pairwise_cons.mp hl with ⟨hy, hys⟩
    by_cases h : pri x y
    · rw [if_pos h]
      refine List.pairwise_cons.mpr ⟨?_, hl⟩
      intro z hz
      rcases List.mem_cons.mp hz with rfl | hz2
      · exact h
      · exact htr x y z h (hy z hz2)
    · rw [if_neg h]
      refine List.pairwise_cons.mpr ⟨?_, ih hys⟩
      intro z hz
      rcases mem_insB.mp hz with hzx | hz2
      · subst hzx
        rcases htot z y with hxy | hyx
        · exact absurd hxy h
        · exact hyx
      · exact hy z hz2

theorem sortB_pairwise {α : Type} {pri : α → α → Bool}
    (htot : ∀ a b, pri a b = true ∨ pri b a = true)
    (htr : ∀ a b c, pri a b = true → pri b c = true → pri a c = true)
    (l : List α) :
    List.Pairwise (fun a b => pri a b = true) (sortB pri l) := by
  induction l with
  | nil => simp [sortB]
  | cons x xs ih =>
    simp only [sortB]
    exact insB_pairwise htot htr x ih

/-! ## Trend analyzer (src/analytics/trend_analyzer.py) -/

/-- First-occurrence deduplication (the distinct group keys of a pandas
`groupby`). -/
def dedupAux {α : Type} [BEq α] (seen : List α) : List α → List α
  | [] => []
  | x :: xs =>
    if seen.contains x then dedupAux seen xs
    else x :: dedupAux (x :: seen) xs

/-- The distinct sale dates of a data frame in ascending order — the group
keys of `df.groupby("sale_date")` (pandas sorts group keys). -/
def dayList (df : List SaleRow) : List Int :=
  sortB (fun a b => decide (a ≤ b)) (dedupAux [] (df.map (fun r => r.sale_date)))

/-- The daily revenue of one `groupby("sale_date")` bucket. -/
def dayRevenue (df : List SaleRow) (d : Int) : Rat :=
  sumAmt (df.filter (fun r => r.sale_date == d))

/-- The daily units of one `groupby("sale_date")` bucket. -/
def dayUnits (df : List SaleRow) (d : Int) : Int :=
  sumQty (df.filter (fun r => r.sale_date == d))

def dailyTotals (df : List SaleRow) : List Rat :=
  (dayList df).map (dayRevenue df)

def dailyMean (df : List SaleRow) : Rat :=
  (dailyTotals df).sum / ((dailyTotals df).length : Rat)

/-- Sum of squared deviations of the daily revenues from their mean. -/
def dailySsd (df : List SaleRow) : Rat :=
  ((dailyTotals df).map (fun x => (x - dailyMean df) ^ 2)).sum

/-- The anomaly test of `detect_sales_anomalies` (trend_analyzer.py lines
42-47): the source computes `z = (x - mean) / std` with the pandas sample
standard deviation `std = sqrt(ssd / (n - 1))` and flags `|z| > threshold`.
Over the rationals this is expressed square-free: for `threshold ≥ 0` and
`std > 0`, `|z| > t ↔ t² · ssd < (x - mean)² · (n - 1)`; when all daily
totals are equal (or there is a single day) `std` is 0 (or NaN) and the
source flags nothing, matching the `0 < ssd` conjunct. -/
def zflag (df : List SaleRow) (threshold : Rat) (d : Int) : Bool :=
  decide (0 < dailySsd df ∧
    threshold ^ 2 * dailySsd df <
      (dayRevenue df d - dailyMean df) ^ 2 * (((dayList df).length : Rat) - 1))

/-- One anomaly dict (trend_analyzer.py lines 49-58); the source also
carries the float `zscore` value, irrational over `Rat` and referenced by
no claim, so it is not a field here; its sign determines `atype`. -/
structure Anomaly where
  date : LCh
  revenue : Rat
  units : Int
  atype : LCh
deriving DecidableEq

def sHigh : LCh := ("high").data

def mkAnomaly (df : List SaleRow) (d : Int) : Anomaly :=
  ⟨dateStr d, dayRevenue df d, dayUnits df d,
   if dailyMean df < dayRevenue df d then sHigh else sLow⟩

/-- Embeds `detect_sales_anomalies` (trend_analyzer.py lines 23-65): requires at
least 7 extracted rows (`len(df) < 7` counts transactions, not distinct
days), then flags the daily buckets whose revenue z-score exceeds the
threshold in absolute value. -/
def detect_sales_anomalies (allRows : List SaleRow) (s e : Option Int)
    (threshold : Rat) : List Anomaly :=
  let df := extract_sales allRows s e
  if df.length < 7 then []
  else
    (dayList df).filterMap (fun d =>
      if zflag df threshold d then some (mkAnomaly df d) else none)

/-- Seven sales rows spread over six distinct days, with one outlier day
(daily totals 100, 100, 100, 100, 100, 1000). -/
def c3rows : List SaleRow :=
  [⟨1, 1, 1, 1, 50, 50, 0, [], [], []⟩,
   ⟨2, 1, 1, 1, 50, 50, 0, [], [], []⟩,
   ⟨3, 1, 2, 1, 100, 100, 0, [], [], []⟩,
   ⟨4, 1, 3, 1, 100, 100, 0, [], [], []⟩,
   ⟨5, 1, 4, 1, 100, 100, 0, [], [], []⟩,
   ⟨6, 1, 5, 1, 100, 100, 0, [], [], []⟩,
   ⟨7, 1, 6, 1, 1000, 1000, 0, [], [], []⟩]

theorem c3_extract : extract_sales c3rows none none = c3rows := by decide

theorem c3_dayList : dayList c3rows = [1, 2, 3, 4, 5, 6] := by decide

theorem c3_totals : dailyTotals c3rows = [100, 100, 100, 100, 100, 1000] := by
  rw [dailyTotals, c3_dayList]
  simp only [List.map_cons, List.map_nil, dayRevenue, sumAmt, c3rows,
    List.filter_cons, List.filter_nil]
  norm_num

theorem c3_mean : dailyMean c3rows = 250 := by
  rw [dailyMean, c3_totals]
  norm_num

theorem c3_ssd : dailySsd c3rows = 675000 := by
  rw [dailySsd, c3_totals, c3_mean]
  norm_num

theorem c3_flag6 : zflag c3rows 2 6 = true := by
  rw [zflag, c3_ssd, c3_mean, c3_dayList]
  simp only [dayRevenue, sumAmt, c3rows, List.filter_cons, List.filter_nil,
    List.length_cons, List.length_nil, decide_eq_true_eq]
  norm_num

/-- C3 counterexample: an input with only six distinct days (but seven
transaction rows) on which `detect_sales_anomalies` returns a nonempty
result — the minimum-data guard counts rows (`len(df) < 7`), not distinct
days as claimed. -/
theorem c3_counterexample_fewer_days :
    (dedupAux [] (c3rows.map (fun r => r.sale_date))).length = 6 ∧
    detect_sales_anomalies c3rows none none 2 ≠ [] := by
  refine ⟨by decide, ?_⟩
  have hmem : mkAnomaly c3rows 6 ∈ detect_sales_anomalies c3rows none none 2 := by
    simp only [detect_sales_anomalies, c3_extract]
    rw [if_neg (by decide)]
    apply List.mem_filterMap.mpr
    refine ⟨6, by rw [c3_dayList]; decide, ?_⟩
    simp [c3_flag6]
  exact List.ne_nil_of_mem hmem

/-- C3 (amended): `detect_sales_anomalies` requires at least 7 extracted
sales rows (transactions), not 7 distinct days: with fewer than 7 rows it
returns the empty list (a warning, not an exception); with at least 7 rows
it returns exactly the daily buckets whose revenue z-score (with the pandas
sample standard deviation) exceeds the threshold in absolute value. -/
theorem c3_anomaly_detection_amended (allRows : List SaleRow)
    (s e : Option Int) (t : Rat) :
    ((extract_sales allRows s e).length < 7 →
      detect_sales_anomalies allRows s e t = []) ∧
    (7 ≤ (extract_sales allRows s e).length →
      ∀ a, a ∈ detect_sales_anomalies allRows s e t ↔
        ∃ d ∈ dayList (extract_sales allRows s e),
          zflag (extract_sales allRows s e) t d = true ∧
          a = mkAnomaly (extract_sales allRows s e) d) := by
  constructor
  · intro h
    simp [detect_sales_anomalies, h]
  · intro h a
    have hng : ¬ (extract_sales allRows s e).length < 7 := not_lt.mpr h
    simp only [detect_sales_anomalies, if_neg hng, List.mem_filterMap]
    constructor
    · rintro ⟨d, hd, hopt⟩
      by_cases hf : zflag (extract_sales allRows s e) t d = true
      · rw [if_pos hf] at hopt
        exact ⟨d, hd, hf, (Option.some.inj hopt).symm⟩
      · rw [if_neg hf] at hopt
        exact absurd hopt (by simp)
    · rintro ⟨d, hd, hf, rfl⟩
      exact ⟨d, hd, by rw [if_pos hf]⟩

theorem c3_anomaly_detection_amended_witness :
    detect_sales_anomalies [⟨1, 1, 1, 1, 100, 100, 0, [], [], []⟩] none none 2 = [] ∧
    mkAnomaly (extract_sales c3rows none none) 6 ∈
      detect_sales_anomalies c3rows none none 2 := by
  constructor
  · exact (c3_anomaly_detection_amended
      [⟨1, 1, 1, 1, 100, 100, 0, [], [], []⟩] none none 2).1 (by decide)
  · apply ((c3_anomaly_detection_amended c3rows none none 2).2 (by decide)
      (mkAnomaly (extract_sales c3rows none none) 6)).mpr
    refine ⟨6, ?_, ?_, rfl⟩
    · rw [c3_extract, c3_dayList]
      decide
    · rw [c3_extract]
      exact c3_flag6

/-! ## Top-N vehicles aggregation (src/pipeline/transformers/aggregator.py) -/

/-- The `groupby(["vehicle_id", "make", "model", "category"])` key. -/
structure VKey where
  vehicle_id : Nat
  make : LCh
  model : LCh
  category : LCh
deriving DecidableEq

def rowKey (r : SaleRow) : VKey := ⟨r.vehicle_id, r.make, r.model, r.category⟩

/-- Lexicographic order on ASCII strings (pandas sorts string group keys
lexicographically). -/
def lchLt : LCh → LCh → Bool
  | [], [] => false
  | [], _ :: _ => true
  | _ :: _, [] => false
  | a :: as, b :: bs =>
    if a.toNat < b.toNat then true
    else if b.toNat < a.toNat then false
    else lchLt as bs

/-- The ascending order in which pandas emits the grouped keys
(lexicographic on the key tuple). -/
def keyLe (k1 k2 : VKey) : Bool :=
  if k1.vehicle_id ≠ k2.vehicle_id then decide (k1.vehicle_id < k2.vehicle_id)
  else if k1.make ≠ k2.make then lchLt k1.make k2.make
  else if k1.model ≠ k2.model then lchLt k1.model k2.model
  else if k1.category ≠ k2.category then lchLt k1.category k2.category
  else true

/-- One output row of `aggregate_top_n_vehicles`: the group key with the
summed quantity and summed total amount. -/
structure VAgg where
  key : VKey
  quantity : Int
  total_amount : Rat
deriving DecidableEq

def groupQty (df : List SaleRow) (k : VKey) : Int :=
  sumQty (df.filter (fun r => rowKey r == k))

def groupAmt (df : List SaleRow) (k : VKey) : Rat :=
  sumAmt (df.filter (fun r => rowKey r == k))

/-- Descending-by-amount placement used to model
`sort_values("total_amount", ascending=False)`.  (The pandas default sort
kind is unstable, so the order of equal-amount groups is unspecified in the
source; this model uses a stable sort, and no claim depends on ties.) -/
def amtPri (g h : VAgg) : Bool := decide (h.total_amount ≤ g.total_amount)

/-- Embeds `aggregate_top_n_vehicles` (aggregator.py lines 126-147): group rows by
the vehicle key, sum quantity and total amount per group, sort the groups
by summed amount descending and keep the first `n`.  (The typed row model
always carries a `vehicle_id` column, so the missing-column early return of
line 130 cannot trigger.) -/
def aggregate_top_n_vehicles (df : List SaleRow) (n : Nat) : List VAgg :=
  let keys := sortB keyLe (dedupAux [] (df.map rowKey))
  let groups := keys.map (fun k => VAgg.mk k (groupQty df k) (groupAmt df k))
  (sortB amtPri groups).take n

/-- Three vehicles with summed totals 500, 300 and 800 (vehicle 1 has two
rows of 200 and 300, matching the Top-2 example of the spec). -/
def c7rows : List SaleRow :=
  [⟨1, 1, 1, 1, 200, 200, 0, [], [], []⟩,
   ⟨2, 1, 2, 1, 300, 300, 0, [], [], []⟩,
   ⟨3, 2, 3, 1, 300, 300, 0, [], [], []⟩,
   ⟨4, 3, 4, 1, 800, 800, 0, [], [], []⟩]

theorem c7_amt1 : groupAmt c7rows ⟨1, [], [], []⟩ = 500 := by
  rw [groupAmt]
  norm_num [sumAmt, c7rows, rowKey, List.filter_cons, List.filter_nil]

theorem c7_amt2 : groupAmt c7rows ⟨2, [], [], []⟩ = 300 := by
  rw [groupAmt]
  norm_num [sumAmt, c7rows, rowKey, List.filter_cons, List.filter_nil]

theorem c7_amt3 : groupAmt c7rows ⟨3, [], [], []⟩ = 800 := by
  rw [groupAmt]
  norm_num [sumAmt, c7rows, rowKey, List.filter_cons, List.filter_nil]

/-- C7: the Top-N vehicles aggregation groups rows by vehicle identity,
sums quantity and total amount per vehicle, sorts the groups descending by
summed amount, and truncates to the first N; on three vehicles with totals
[500, 300, 800] the top-2 result is [vehicle@800, vehicle@500] in that
order. -/
theorem c7_top_n_vehicles :
    (∀ (df : List SaleRow) (n : Nat),
      (aggregate_top_n_vehicles df n).length ≤ n ∧
      List.Pairwise (fun a b => b.total_amount ≤ a.total_amount)
        (aggregate_top_n_vehicles df n) ∧
      ∀ g ∈ aggregate_top_n_vehicles df n,
        g.quantity = groupQty df g.key ∧ g.total_amount = groupAmt df g.key) ∧
    aggregate_top_n_vehicles c7rows 2 =
      [⟨⟨3, [], [], []⟩, 1, 800⟩, ⟨⟨1, [], [], []⟩, 2, 500⟩] := by
  constructor
  · intro df n
    have htot : ∀ a b : VAgg, amtPri a b = true ∨ amtPri b a = true := by
      intro a b
      simp only [amtPri, decide_eq_true_eq]
      exact le_total b.total_amount a.total_amount
    have htr : ∀ a b c : VAgg,
        amtPri a b = true → amtPri b c = true → amtPri a c = true := by
      intro a b c
      simp only [amtPri, decide_eq_true_eq]
      intro h1 h2
      exact le_trans h2 h1
    refine ⟨?_, ?_, ?_⟩
    · simp only [aggregate_top_n_vehicles]
      rw [List.length_take]
      exact min_le_left _ _
    · simp only [aggregate_top_n_vehicles]
      apply List.Pairwise.sublist (List.take_sublist _ _)
      apply List.Pairwise.imp ?_ (sortB_pairwise htot htr _)
      intro a b h
      simpa [amtPri, decide_eq_true_eq] using h
    · intro g hg
      simp only [aggregate_top_n_vehicles] at hg
      have hg2 := (List.take_sublist _ _).subset hg
      have hg3 := (sortB_perm amtPri _).mem_iff.mp hg2
      obtain ⟨k, _, rfl⟩ := List.mem_map.mp hg3
      exact ⟨rfl, rfl⟩
  · have hkeys : sortB keyLe (dedupAux [] (c7rows.map rowKey)) =
        [⟨1, [], [], []⟩, ⟨2, [], [], []⟩, ⟨3, [], [], []⟩] := by decide
    have hq1 : groupQty c7rows ⟨1, [], [], []⟩ = 2 := by decide
    have hq2 : groupQty c7rows ⟨2, [], [], []⟩ = 1 := by decide
    have hq3 : groupQty c7rows ⟨3, [], [], []⟩ = 1 := by decide
    simp only [aggregate_top_n_vehicles]
    rw [hkeys]
    simp only [List.map_cons, List.map_nil, hq1, hq2, hq3, c7_amt1, c7_amt2,
      c7_amt3]
    norm_num [sortB, insB, amtPri, List.take_succ_cons, List.take_zero]

theorem c7_top_n_vehicles_witness :
    (aggregate_top_n_vehicles c7rows 2).length ≤ 2 ∧
    ((⟨⟨3, [], [], []⟩, 1, 800⟩ : VAgg).quantity =
      groupQty c7rows (⟨⟨3, [], [], []⟩, 1, 800⟩ : VAgg).key) := by
  have h := c7_top_n_vehicles
  have hmem : (⟨⟨3, [], [], []⟩, 1, 800⟩ : VAgg) ∈
      aggregate_top_n_vehicles c7rows 2 := by
    rw [h.2]
    exact List.mem_cons_self _ _
  exact ⟨(h.1 c7rows 2).1, ((h.1 c7rows 2).2.2 _ hmem).1⟩

/-! ## RAG retrieval (src/llm/services/rag_service.py) -/

/-- One `InsightHistory` record; `insights` lists are ordered newest first,
matching `order_by(InsightHistory.generated_at.desc())`. -/
structure Insight where
  id : Nat
  text : LCh
  itype : LCh
  generated_at : LCh
deriving DecidableEq

/-- One scored retrieval result (the dict of rag_service.py lines 49-57;
the id/text/type/generated_at fields are carried via the record). -/
structure ScoredInsight where
  insight : Insight
  score : Nat
deriving DecidableEq

/-- The line `score = sum(1 for keyword in keywords if keyword in text_lower)`
(rag_service.py line 46): the number of query tokens that occur in the
lowercased insight text (a token occurring several times still counts
once; a duplicated query token counts each time). -/
def insightScore (keywords : List LCh) (text : LCh) : Nat :=
  List.countP (fun kw => infixB kw (pyLower text)) keywords

/-- Descending-by-score placement modelling the stable
`scored_insights.sort(key=..., reverse=True)`. -/
def scorePri (a b : ScoredInsight) : Bool := decide (b.score ≤ a.score)

/-- Embeds `retrieve_similar_insights` (rag_service.py lines 23-68): lowercase and
split the query, optionally filter by insight type, keep the 100 most
recent records, score each, keep only positive scores, sort by score
descending, return the first `limit`. -/
def retrieve_similar_insights (query : LCh) (limit : Nat)
    (insight_type : Option LCh) (insights : List Insight) : List ScoredInsight :=
  let keywords := splitWs (pyLower query)
  let filtered : List Insight := match insight_type with
    | some t => insights.filter (fun (i : Insight) => i.itype == t)
    | none => insights
  let recent := filtered.take 100
  let scored := recent.filterMap (fun (i : Insight) =>
    let score := insightScore keywords i.text
    if score > 0 then some (ScoredInsight.mk i score) else none)
  (sortB scorePri scored).take limit

/-- The reading of retrieval in the claim, stated from its words only:
score each of the most recent 100 records and return the top-K sorted by
score descending — with no positive-score filter.  Used to exhibit where
the source deviates from the claim. -/
def retrieve_claimed (query : LCh) (limit : Nat) (insights : List Insight) :
    List ScoredInsight :=
  let keywords := splitWs (pyLower query)
  let scored := (insights.take 100).map
    (fun (i : Insight) => ScoredInsight.mk i (insightScore keywords i.text))
  (sortB scorePri scored).take limit

def c8insight : Insight :=
  ⟨1, ("inventory is healthy across regions").data,
   ("inventory_status").data, ("2024-01-01T00:00:00").data⟩

/-- C8 counterexample: with one stored record and a query sharing no token
with it, the source returns an empty list, while the claimed "top-K of all
scored records" would return the record (with score 0): zero-score records
are silently discarded, so the claim as stated is false. -/
theorem c8_counterexample_zero_scores :
    retrieve_similar_insights (("engine torque").data) 5 none [c8insight] = [] ∧
    retrieve_claimed (("engine torque").data) 5 [c8insight] =
      [⟨c8insight, 0⟩] := by
  constructor
  · decide
  · decide

/-- C8 (amended): retrieval scores each of the 100 most recent records by
the number of lowercase query tokens occurring in its lowercased text,
keeps only records with a positive score, and returns the top-K of those
sorted by score descending. -/
theorem c8_retrieval_amended (query : LCh) (limit : Nat)
    (insights : List Insight) :
    (∀ r ∈ retrieve_similar_insights query limit none insights,
      r.score = insightScore (splitWs (pyLower query)) r.insight.text ∧
      0 < r.score ∧ r.insight ∈ insights.take 100) ∧
    List.Pairwise (fun a b => b.score ≤ a.score)
      (retrieve_similar_insights query limit none insights) ∧
    (retrieve_similar_insights query limit none insights).length ≤ limit := by
  have htot : ∀ a b : ScoredInsight, scorePri a b = true ∨ scorePri b a = true := by
    intro a b
    simp only [scorePri, decide_eq_true_eq]
    exact Nat.le_total b.score a.score
  have htr : ∀ a b c : ScoredInsight,
      scorePri a b = true → scorePri b c = true → scorePri a c = true := by
    intro a b c
    simp only [scorePri, decide_eq_true_eq]
    intro h1 h2
    exact le_trans h2 h1
  refine ⟨?_, ?_, ?_⟩
  · intro r hr
    simp only [retrieve_similar_insights] at hr
    have h2 := (List.take_sublist _ _).subset hr
    have h3 := (sortB_perm _ _).mem_iff.mp h2
    obtain ⟨i, hi, hopt⟩ := List.mem_filterMap.mp h3
    by_cases hs : 0 < insightScore (splitWs (pyLower query)) i.text
    · rw [if_pos hs] at hopt
      rcases Option.some.inj hopt with rfl
      exact ⟨rfl, hs, hi⟩
    · rw [if_neg hs] at hopt
      exact absurd hopt (by simp)
  · simp only [retrieve_similar_insights]
    apply List.Pairwise.sublist (List.take_sublist _ _)
    apply List.Pairwise.imp ?_ (sortB_pairwise htot htr _)
    intro a b h
    simpa [scorePri, decide_eq_true_eq] using h
  · simp only [retrieve_similar_insights]
    rw [List.length_take]
    exact min_le_left _ _

def c8hit : Insight :=
  ⟨2, ("sales rose sharply in west region").data,
   ("sales_trend").data, ("2024-01-02T00:00:00").data⟩

theorem c8_retrieval_amended_witness :
    0 < (ScoredInsight.mk c8hit 2).score ∧
    (ScoredInsight.mk c8hit 2).insight ∈ [c8hit].take 100 := by
  have h := (c8_retrieval_amended (("sales west").data) 5 [c8hit]).1
    (ScoredInsight.mk c8hit 2) (by decide)
  exact ⟨h.2.1, h.2.2⟩
